import Mathlib

/-!
Verification development for the registrar-rs repository.

The definitions below are shallow embeddings of the Rust sources:
  * `src/crates/registrar-common/src/json.rs` and its near-identical copy
    `src/src/json.rs` (typed JSON value accessor),
  * `src/crates/registrar-common/src/error.rs` (error taxonomy),
  * `src/crates/registrar-common/src/lib.rs` (`ApiRequest::send` status check),
  * `src/crates/openprovider/src/lib.rs` (`Client::request` envelope unwrap,
    `Client::list_records` record mapping),
  * `src/crates/openprovider/src/io_result_ext.rs` (`IOResultExt`),
  * `src/crates/porkbun/src/lib.rs` (`Client::request` body key injection).

JSON values follow serde_json: `Value` is the sum of Null/Bool/Number/String/
Array/Object, `Number` stores a `u64`, a negative `i64` or an `f64`, and
`Map<String, Value>` is keyed uniquely; it is modelled by an association list
with unique keys, queried by `mapGet` and updated by `mapInsert`.
-/

set_option autoImplicit false

namespace Registrar

/-- Mirrors `ValueType` in `src/crates/registrar-common/src/json.rs` (duplicated in
`src/src/json.rs`): the tag of the JSON variant an accessor expected. -/
inductive ValueType where
  | Null
  | Bool
  | Number
  | String
  | Array
  | Object
  deriving DecidableEq, Repr

/-- Mirrors `NumberType` in the same files: the numeric refinement an accessor expected. -/
inductive NumberType where
  | I64
  | U64
  | U32
  | Float
  deriving DecidableEq, Repr

/-- Mirrors serde_json's `Number`: `PosInt(u64)` for every value representable as `u64`
(`is_u64` is true exactly on this arm), `NegInt(i64)` for negative integers, `Float(f64)`
otherwise. The float payload is inspected by no claim and is left abstract. -/
inductive JNumber where
  | posInt (n : Nat)
  | negInt (i : Int)
  | float
  deriving DecidableEq, Repr

/-- Mirrors `serde_json::Value`. -/
inductive JValue where
  | null
  | bool (b : Bool)
  | num (n : JNumber)
  | str (s : String)
  | arr (elems : List JValue)
  | obj (entries : List (String × JValue))

/-- Mirrors `serde_json::Map::get`: the value bound to `key`, if any (keys are unique). -/
def mapGet (entries : List (String × JValue)) (key : String) : Option JValue :=
  match entries with
  | [] => none
  | (k, v) :: rest => if k = key then some v else mapGet rest key

/-- Mirrors `serde_json::Map::insert`: replaces the value at an existing key, otherwise
adds the binding. -/
def mapInsert (entries : List (String × JValue)) (key : String) (v : JValue) :
    List (String × JValue) :=
  match entries with
  | [] => [(key, v)]
  | (k, w) :: rest =>
    if k = key then (key, v) :: rest else (k, w) :: mapInsert rest key v

/-- Mirrors the JSON accessor error type: the four JSON-shape arms shared by
`src/src/json.rs` (`json::Error`) and `src/crates/registrar-common/src/error.rs`. -/
inductive JError where
  | IndexOutOfBounds (i : Nat)
  | KeyMissing (k : String)
  | WrongType (v : JValue) (t : ValueType)
  | WrongNumberType (n : JNumber) (t : NumberType)

/-- Mirrors `impl IndexExt for usize`: index a JSON value with an array position. -/
def index_into_usize (i : Nat) (v : JValue) : Except JError JValue :=
  match v with
  | .arr elems =>
    match elems[i]? with
    | none => .error (.IndexOutOfBounds i)
    | some value => .ok value
  | _ => .error (.WrongType v .Array)

/-- Mirrors `impl IndexExt for str`: index a JSON value with a string key. -/
def index_into_str (key : String) (v : JValue) : Except JError JValue :=
  match v with
  | .obj entries =>
    match mapGet entries key with
    | none => .error (.KeyMissing key)
    | some value => .ok value
  | _ => .error (.WrongType v .Object)

/-- Mirrors `ValueExt::get_ok` specialised to string indices; `get_ok` only delegates to
`IndexExt::index_into`. -/
def get_ok (v : JValue) (key : String) : Except JError JValue :=
  index_into_str key v

/-- The constant `std::u32::MAX` as cast to `u64` in the source guard. -/
def U32_MAX : Nat := 4294967295

/-- Mirrors `ValueExt::as_u64_ok`: `Ok` exactly on numbers stored as `u64`. -/
def as_u64_ok (v : JValue) : Except JError Nat :=
  match v with
  | .num (.posInt n) => .ok n
  | .num n => .error (.WrongNumberType n .U64)
  | _ => .error (.WrongType v .Number)

/-- Mirrors `ValueExt::as_u32_ok`. The first source guard is
`num.is_u64() && num.as_u64().unwrap() < (std::u32::MAX as u64)` — a STRICT comparison —
and the success value is the truncating cast `num.as_u64().unwrap() as u32`; the second
guard (`is_u64` alone) yields `WrongNumberType(_, U32)`, a number that is not a `u64`
yields `WrongNumberType(_, U64)`, and a non-number yields `WrongType(_, Number)`. -/
def as_u32_ok (v : JValue) : Except JError Nat :=
  match v with
  | .num (.posInt n) =>
    if n < U32_MAX then .ok (n % 2 ^ 32)
    else .error (.WrongNumberType (.posInt n) .U32)
  | .num n => .error (.WrongNumberType n .U64)
  | _ => .error (.WrongType v .Number)

/-- Mirrors `ValueExt::as_str_ok`. -/
def as_str_ok (v : JValue) : Except JError String :=
  match v with
  | .str s => .ok s
  | _ => .error (.WrongType v .String)

/-- Mirrors the `describe` strings for `ValueType` (the `Display` texts in
`src/crates/registrar-common/src/json.rs`, `describe` in `src/src/json.rs`). -/
def describeValueType : ValueType → String
  | .Null => "the null constant"
  | .Bool => "a boolean"
  | .Number => "a number"
  | .String => "a string"
  | .Array => "an array"
  | .Object => "an object"

/-- Mirrors the `Display` texts for `NumberType` in the same files. -/
def describeNumberType : NumberType → String
  | .U64 => "an unsigned 64-bit integer"
  | .I64 => "a signed 64-bit integer"
  | .U32 => "an unsigned 32-bit integer"
  | .Float => "a floating point number"

/-- Mirrors `Display for json::Error` in `src/src/json.rs` (the openprovider crate's own
`json.rs` is not present under `src/`; the repository duplicates this module and this copy
is the one living next to the openprovider-style client in `src/src/lib.rs`). -/
def displayJError : JError → String
  | .KeyMissing key => "key \x27" ++ key ++ "\x27 is missing"
  | .WrongType _ expected => "expected " ++ describeValueType expected
  | .WrongNumberType _ expected => "expected " ++ describeNumberType expected
  | .IndexOutOfBounds i => "index " ++ toString i ++ " is out of bounds"

/-- Hexadecimal digit in lowercase, as serde_json's string escaper emits. -/
def hexDigit (n : Nat) : Char :=
  if n < 10 then Char.ofNat (48 + n) else Char.ofNat (87 + n)

/-- Escape one character of a JSON string the way serde_json's serializer does:
quote and backslash get a backslash, the short control escapes are used where they
exist, other control characters become a lowercase hexadecimal escape, everything
else is emitted verbatim. -/
def escapeChar (c : Char) : String :=
  if c = Char.ofNat 34 then "\\\""
  else if c = Char.ofNat 92 then "\\\\"
  else if c = Char.ofNat 8 then "\\b"
  else if c = Char.ofNat 12 then "\\f"
  else if c = Char.ofNat 10 then "\\n"
  else if c = Char.ofNat 13 then "\\r"
  else if c = Char.ofNat 9 then "\\t"
  else if c.toNat < 32 then
    "\\u00" ++ String.mk [hexDigit (c.toNat / 16), hexDigit (c.toNat % 16)]
  else String.singleton c

/-- Render a string as a JSON string literal (serde_json's writer). -/
def renderKey (k : String) : String :=
  "\"" ++ String.join (k.toList.map escapeChar) ++ "\""

mutual

/-- Mirrors `Display for serde_json::Value` (compact JSON serialization), which the source
invokes at `response.get_ok("desc")?.to_string()` in `openprovider::Client::request`. The
float arm's rendering is left abstract: no claim inspects a float. -/
def jsonRender : JValue → String
  | .null => "null"
  | .bool true => "true"
  | .bool false => "false"
  | .num (.posInt n) => toString n
  | .num (.negInt i) => toString i
  | .num .float => "0.0"
  | .str s => renderKey s
  | .arr elems => "[" ++ renderArray elems ++ "]"
  | .obj entries => "\x7b" ++ renderObject entries ++ "\x7d"

/-- Comma-separated rendering of array elements. -/
def renderArray : List JValue → String
  | [] => ""
  | [x] => jsonRender x
  | x :: y :: rest => jsonRender x ++ "," ++ renderArray (y :: rest)

/-- Comma-separated rendering of object entries. -/
def renderObject : List (String × JValue) → String
  | [] => ""
  | [(k, v)] => renderKey k ++ ":" ++ jsonRender v
  | (k, v) :: e :: rest => renderKey k ++ ":" ++ jsonRender v ++ "," ++ renderObject (e :: rest)

end

/-- Mirrors `std::io::ErrorKind` (the stable kinds the `IOResultExt` trait's ungated
methods reference). -/
inductive ErrorKind where
  | NotFound
  | PermissionDenied
  | ConnectionRefused
  | ConnectionReset
  | ConnectionAborted
  | NotConnected
  | AddrInUse
  | AddrNotAvailable
  | BrokenPipe
  | AlreadyExists
  | WouldBlock
  | InvalidInput
  | InvalidData
  | TimedOut
  | WriteZero
  | Interrupted
  | Unsupported
  | UnexpectedEof
  | OutOfMemory
  | Other
  deriving DecidableEq, Repr

/-- Mirrors `std::io::Error` as far as `IOResultExt` observes it: a kind (read by
`err.kind()`) and a message; `ok_kind` returns the error value itself unchanged. -/
structure IOErr where
  kind : ErrorKind
  msg : String
  deriving DecidableEq, Repr

/-- Mirrors `IOResultExt::ok_kind` for `Result<T, std::io::Error>`
(src/crates/openprovider/src/io_result_ext.rs): success maps to `Ok(Some(value))`, an
error whose kind satisfies the predicate maps to `Ok(None)`, any other error is returned
unchanged. -/
def ok_kind {T : Type} (r : Except IOErr T) (pred : ErrorKind → Bool) :
    Except IOErr (Option T) :=
  match r with
  | .ok value => .ok (some value)
  | .error err => if pred err.kind then .ok none else .error err

/-- Mirrors the provided method `ok_not_found`: `ok_kind` with
`matches!(kind, ErrorKind::NotFound)`. -/
def ok_not_found {T : Type} (r : Except IOErr T) : Except IOErr (Option T) :=
  ok_kind r (fun kind =>
    match kind with
    | ErrorKind.NotFound => true
    | _ => false)

/-- Mirrors the provided method `ok_permission_denied`. -/
def ok_permission_denied {T : Type} (r : Except IOErr T) : Except IOErr (Option T) :=
  ok_kind r (fun kind =>
    match kind with
    | ErrorKind.PermissionDenied => true
    | _ => false)

/-- Mirrors the provided method `ok_connection_refused`. -/
def ok_connection_refused {T : Type} (r : Except IOErr T) : Except IOErr (Option T) :=
  ok_kind r (fun kind =>
    match kind with
    | ErrorKind.ConnectionRefused => true
    | _ => false)

/-- Mirrors the provided method `ok_connection_reset` EXACTLY as written in the source:
its body tests `matches!(kind, ErrorKind::ConnectionRefused)` — the REFUSED kind — not
`ConnectionReset`. -/
def ok_connection_reset {T : Type} (r : Except IOErr T) : Except IOErr (Option T) :=
  ok_kind r (fun kind =>
    match kind with
    | ErrorKind.ConnectionRefused => true
    | _ => false)

/-- Mirrors `openprovider::Error` (src/crates/openprovider/src/lib.rs). -/
inductive OPError where
  | AuthenticationFailed
  | UnknownRemoteError (code : Nat) (desc : String)
  | Io (e : IOErr)
  | Json (message : String)
  | Other (message : String)

/-- Mirrors `CODE_SUCCESS` in `src/crates/openprovider/src/lib.rs`. -/
def CODE_SUCCESS : Nat := 0

/-- Mirrors `CODE_AUTH_FAILED` in `src/crates/openprovider/src/lib.rs`: the error code the
OpenProvider API returns on an authentication failure. -/
def CODE_AUTH_FAILED : Nat := 196

/-- Mirrors the response-handling tail of `openprovider::Client::request`: once the body is
decoded, `code` is read with `get_ok("code")?.as_u64_ok()?` (a `json::Error` converts via
`From` into `Error::Json(display)`), `code == CODE_SUCCESS` returns `data.clone()`,
`code == CODE_AUTH_FAILED` is `AuthenticationFailed`, and any other code is
`UnknownRemoteError(code, response.get_ok("desc")?.to_string())`, where `to_string()` is
the JSON rendering of the `desc` value. -/
def unwrapEnvelope (response : JValue) : Except OPError JValue :=
  match get_ok response "code" with
  | .error e => .error (.Json (displayJError e))
  | .ok codeV =>
    match as_u64_ok codeV with
    | .error e => .error (.Json (displayJError e))
    | .ok code =>
      if code = CODE_SUCCESS then
        match get_ok response "data" with
        | .error e => .error (.Json (displayJError e))
        | .ok data => .ok data
      else if code = CODE_AUTH_FAILED then
        .error .AuthenticationFailed
      else
        match get_ok response "desc" with
        | .error e => .error (.Json (displayJError e))
        | .ok desc => .error (.UnknownRemoteError code (jsonRender desc))

set_option linter.unusedVariables false in
/-- Mirrors `openprovider::Client::request` as a whole, its transport made explicit: the
behaviour of attempt `i` (the `send().await` / `.json().await` pair, whose `reqwest::Error`
converts via `From` into `Error::Other(message)`) is given as a function of the attempt
index. The source body is straight-line: it performs exactly one
`builder.send().await?.json().await?`, contains no retry loop, and never reads
`self.max_retries`; the returned list records the attempt indices actually used. -/
def requestRun (maxRetries : Nat) (transport : Nat → Except String JValue) :
    Except OPError JValue × List Nat :=
  match transport 0 with
  | .error msg => (.error (.Other msg), [0])
  | .ok response => (unwrapEnvelope response, [0])

/-- Mirrors `HttpErrorKind` in `src/crates/registrar-common/src/error.rs`. -/
inductive HttpErrorKind where
  | Parse
  | ParseTooLarge
  | ParseStatus
  | User
  | Canceled
  | Closed
  | IncCmpleteMessage
  | BodyWriteAborted
  | Timeout
  | Unknown

/-- Mirrors the `Error` enum of `src/crates/registrar-common/src/error.rs` (the unified
taxonomy of the shared crate). -/
inductive CommonError where
  | AuthenticationFailed
  | MissingPath
  | Api (code : Option Nat) (message : String)
  | Http (kind : HttpErrorKind) (message : String)
  | StatusCode (status : Nat)
  | ParseStatusCode
  | Method
  | HeaderName
  | HeaderValue
  | MaxSizeReached
  | InvalidUri (message : String)
  | Io (e : IOErr)
  | IndexOutOfBounds (i : Nat)
  | KeyMissing (k : String)
  | WrongType (v : JValue) (t : ValueType)
  | WrongNumberType (n : JNumber) (t : NumberType)
  | OtherJson (message : String)
  | Generic (message : String)

/-- Mirrors the response-status test in `ApiRequest::send`
(src/crates/registrar-common/src/lib.rs):
`if status < 200 || status > 300 { return Err(Error::StatusCode(status)); }`.
The result `none` means the implementation falls through and proceeds to collect and
decode the response body. -/
def sendStatusCheck (status : Nat) : Option CommonError :=
  if status < 200 ∨ status > 300 then some (CommonError.StatusCode status) else none

/-- Mirrors `openprovider::RecordType`. -/
inductive RecordType where
  | A
  | AAAA
  | CAA
  | CNAME
  | MX
  | SPF
  | SRV
  | TXT
  | NS
  | TLSA
  | SSHFP
  | SOA
  deriving DecidableEq, Repr

/-- Mirrors `openprovider::Record`: the serde-decoded DNS record; `records` fields absent
from the wire decode to `none` in the options. -/
structure Record where
  creation_date : Option String
  ip : Option String
  modification_date : Option String
  name : String
  prio : Option Nat
  ttl : Nat
  ty : RecordType
  value : String
  deriving DecidableEq, Repr

/-- Mirrors `openprovider::SectigoData`. -/
structure SectigoData where
  autorenew : Bool
  order_date : String
  renewal_date : String
  securd : Bool
  website_id : Nat
  deriving DecidableEq, Repr

/-- Mirrors `openprovider::PremiumDnsData`. -/
inductive PremiumDnsData where
  | Sectigo (d : SectigoData)
  deriving DecidableEq, Repr

/-- Mirrors `openprovider::Zone`: `records` is an `Option` because the wire response may
omit the field (serde then decodes it to `None`). -/
structure Zone where
  active : Bool
  creation_date : String
  dnskey : Option String
  id : Nat
  ip : String
  is_deleted : Bool
  is_shadow : Bool
  is_spamexperts_enabled : Bool
  modification_date : String
  name : String
  premium_dns : Option PremiumDnsData
  provider : String
  records : Option (List Record)
  reseller_id : Nat
  ty : String
  deriving DecidableEq, Repr

/-- The `usize` modulus: the name arithmetic in `list_records` wraps at `2^64` in a
release build. -/
def USIZE_MOD : Nat := 2 ^ 64

/-- Mirrors the per-record name rewrite inside `openprovider::Client::list_records`:
`if r.name.len() == name_ref.len() { r.name.clone() } else
{ r.name.chars().take(r.name.len() - name_ref.len() - 1).collect() }` — lengths are UTF-8
byte lengths and the `usize` subtraction wraps. -/
def recordNameRewrite (nameRef : String) (rname : String) : String :=
  if rname.utf8ByteSize = nameRef.utf8ByteSize then rname
  else
    String.mk (rname.toList.take
      ((rname.utf8ByteSize + USIZE_MOD - nameRef.utf8ByteSize - 1) % USIZE_MOD))

/-- Mirrors the record-mapping tail of `openprovider::Client::list_records`: the fetched
zone's `records` field is taken with `Option::unwrap`, which ABORTS the process when the
field was absent from the response; the result `none` models that abort. Otherwise every
record is rebuilt field by field with the rewritten name. -/
def listRecordsMap (nameRef : String) (z : Zone) : Option (List Record) :=
  match z.records with
  | none => none
  | some records =>
    some (records.map (fun r =>
      { creation_date := r.creation_date
        ip := r.ip
        modification_date := r.modification_date
        name := recordNameRewrite nameRef r.name
        prio := r.prio
        ttl := r.ttl
        ty := r.ty
        value := r.value }))

/-- Concrete decoded zone whose optional `records` field is absent (as when the wire
response carries no `records` key and serde decodes the field to `None`). -/
def zoneWithoutRecords : Zone :=
  { active := true
    creation_date := "2024-01-01"
    dnskey := none
    id := 1
    ip := "203.0.113.7"
    is_deleted := false
    is_shadow := false
    is_spamexperts_enabled := false
    modification_date := "2024-01-02"
    name := "example.com"
    premium_dns := none
    provider := "sectigo"
    records := none
    reseller_id := 7
    ty := "master" }

/-- Mirrors the body-mutation step of `porkbun::Client::request`
(src/crates/porkbun/src/lib.rs): `body.as_object_mut().unwrap()` ABORTS on a non-object
body (modelled by `none`); then, when the client holds configured keys,
`obj.insert("apikey", key)` followed by `obj.insert("secretapikey", secret_key)`. -/
def porkbunInjectKeys (body : JValue) (keys : Option (String × String)) : Option JValue :=
  match body with
  | .obj entries =>
    match keys with
    | none => some (.obj entries)
    | some (key, secretKey) =>
      some (.obj (mapInsert (mapInsert entries "apikey" (.str key))
        "secretapikey" (.str secretKey)))
  | _ => none

/-! Helper lemmas about the object-map model. -/

theorem mapGet_mapInsert_self (entries : List (String × JValue)) (key : String)
    (v : JValue) : mapGet (mapInsert entries key v) key = some v := by
  induction entries with
  | nil => simp [mapInsert, mapGet]
  | cons e rest ih =>
    obtain ⟨k, w⟩ := e
    by_cases h : k = key
    · subst h
      simp [mapInsert, mapGet]
    · simp [mapInsert, mapGet, h, ih]

theorem mapGet_mapInsert_ne (entries : List (String × JValue)) (key key' : String)
    (v : JValue) (h : key ≠ key') :
    mapGet (mapInsert entries key v) key' = mapGet entries key' := by
  induction entries with
  | nil => simp [mapInsert, mapGet, h]
  | cons e rest ih =>
    obtain ⟨k, w⟩ := e
    by_cases hk : k = key
    · subst hk
      simp [mapInsert, mapGet, h]
    · by_cases hk' : k = key'
      · subst hk'
        simp [mapInsert, mapGet, hk]
      · simp [mapInsert, mapGet, hk, hk', ih]

/-! Claim theorems. -/

/-- C1: contrary to the claim `asU32 succeeds iff n <= u32::MAX`, `as_u32_ok` REJECTS the
JSON number `u32::MAX = 4294967295` — an unsigned integer within 32-bit range — with
`WrongNumberType(_, U32)`: the source guard compares with `<` where the stated (and
evidently intended) bound is `<=`, so the largest valid `u32` is refused as a `u32`. -/
theorem as_u32_ok_rejects_u32_max :
    as_u32_ok (JValue.num (JNumber.posInt 4294967295)) =
      Except.error (JError.WrongNumberType (JNumber.posInt 4294967295) NumberType.U32)
    ∧ (4294967295 : Nat) ≤ U32_MAX := by
  constructor
  · rfl
  · decide

/-- C2 counterexample: for the decoded body with code `42` and desc text `oops`, the
remote-API error does NOT carry the description string `oops`; the source formats the
`desc` value with `to_string()` (the JSON rendering), so the carried string is the
six-character `"oops"` — quotes included — which differs from `oops`. -/
theorem unwrap_code42_carries_quoted_desc :
    unwrapEnvelope (JValue.obj
        [("code", JValue.num (JNumber.posInt 42)), ("desc", JValue.str "oops")]) =
      Except.error (OPError.UnknownRemoteError 42 "\"oops\"")
    ∧ "\"oops\"" ≠ "oops" := by
  have hj : jsonRender (JValue.str "oops") = "\"oops\"" := by
    simp only [jsonRender]
    rfl
  constructor
  · calc unwrapEnvelope (JValue.obj
          [("code", JValue.num (JNumber.posInt 42)), ("desc", JValue.str "oops")])
        = Except.error (OPError.UnknownRemoteError 42 (jsonRender (JValue.str "oops"))) :=
          rfl
      _ = Except.error (OPError.UnknownRemoteError 42 "\"oops\"") := by rw [hj]
  · decide

/-- C2 amended: for every decoded object body whose `code` field holds the unsigned
integer `code`: `code = 0` with `data` present returns the data value as success;
`code = 196` yields `AuthenticationFailed`; any other nonzero code with `desc` present
yields the remote-API error carrying that code and the JSON RENDERING of the `desc` value
(for a string desc, its text wrapped in quotes), not the bare text. -/
theorem unwrapEnvelope_contract (entries : List (String × JValue)) (code : Nat)
    (descText : String) :
    mapGet entries "code" = some (JValue.num (JNumber.posInt code)) →
    ((code = 0 → ∀ d, mapGet entries "data" = some d →
        unwrapEnvelope (JValue.obj entries) = Except.ok d) ∧
     (code = 196 →
        unwrapEnvelope (JValue.obj entries) = Except.error OPError.AuthenticationFailed) ∧
     (code ≠ 0 → code ≠ 196 → mapGet entries "desc" = some (JValue.str descText) →
        unwrapEnvelope (JValue.obj entries) =
          Except.error (OPError.UnknownRemoteError code
            (jsonRender (JValue.str descText))))) := by
  intro hcode
  refine ⟨?_, ?_, ?_⟩
  · rintro rfl d hdata
    simp [unwrapEnvelope, get_ok, index_into_str, hcode, hdata, as_u64_ok, CODE_SUCCESS]
  · rintro rfl
    simp [unwrapEnvelope, get_ok, index_into_str, hcode, as_u64_ok, CODE_SUCCESS,
      CODE_AUTH_FAILED]
  · intro h0 h196 hdesc
    simp [unwrapEnvelope, get_ok, index_into_str, hcode, hdesc, as_u64_ok, CODE_SUCCESS,
      CODE_AUTH_FAILED, h0, h196]

/-- Closed instance of the C2 amended theorem at the auth-failure sentinel `196`. -/
theorem unwrapEnvelope_contract_witness :
    unwrapEnvelope (JValue.obj [("code", JValue.num (JNumber.posInt 196))]) =
      Except.error OPError.AuthenticationFailed :=
  ((unwrapEnvelope_contract [("code", JValue.num (JNumber.posInt 196))] 196 "") rfl).2.1 rfl

/-- C3 counterexample: with `max_retries = 1` and a transport that fails on every
attempt, the pipeline performs exactly one attempt, not `1 + 1 = 2`: the source body of
`request` is straight-line, never loops and never reads `max_retries`. -/
theorem requestRun_attempts_ctrex :
    (requestRun 1 (fun _ => Except.error "connection refused")).2.length = 1
    ∧ (1 : Nat) ≠ 1 + 1 := by
  constructor
  · rfl
  · decide

/-- C3 amended: for every configured `max_retries` value and every transport behaviour —
failing or succeeding, transport error or remote business error alike — `request` makes
exactly one connection attempt (the attempt trace is `[0]`): the retry configuration is
dead, and the first transport failure is surfaced immediately. -/
theorem requestRun_always_one_attempt (maxRetries : Nat)
    (transport : Nat → Except String JValue) :
    (requestRun maxRetries transport).2 = [0] := by
  rcases htr : transport 0 with msg | response <;> simp [requestRun, htr]

/-- C4 counterexample: a decoded envelope whose `code` is `0` but whose `data` field is
ABSENT does not produce success; `response.get_ok("data")?` propagates `KeyMissing`,
surfaced as a JSON-shape error. -/
theorem unwrap_code0_missing_data_errors :
    unwrapEnvelope (JValue.obj [("code", JValue.num (JNumber.posInt 0))]) =
      Except.error (OPError.Json (displayJError (JError.KeyMissing "data"))) := rfl

/-- C4 amended: for every decoded object body whose `code` field is `0`, the pipeline
returns success with the value of `data` regardless of what that value is (including
null) PROVIDED the `data` key is present; when `data` is absent it instead returns the
JSON-shape error for the missing key. -/
theorem unwrapEnvelope_code_zero (entries : List (String × JValue)) :
    mapGet entries "code" = some (JValue.num (JNumber.posInt 0)) →
    ((∀ d, mapGet entries "data" = some d →
        unwrapEnvelope (JValue.obj entries) = Except.ok d) ∧
     (mapGet entries "data" = none →
        unwrapEnvelope (JValue.obj entries) =
          Except.error (OPError.Json (displayJError (JError.KeyMissing "data"))))) := by
  intro hcode
  constructor
  · intro d hdata
    simp [unwrapEnvelope, get_ok, index_into_str, hcode, hdata, as_u64_ok, CODE_SUCCESS]
  · intro hdata
    simp [unwrapEnvelope, get_ok, index_into_str, hcode, hdata, as_u64_ok, CODE_SUCCESS]

/-- Closed instance of the C4 amended theorem: `code = 0` with `data` present and null
still yields success with the null value. -/
theorem unwrapEnvelope_code_zero_witness :
    unwrapEnvelope (JValue.obj
        [("code", JValue.num (JNumber.posInt 0)), ("data", JValue.null)]) =
      Except.ok JValue.null :=
  ((unwrapEnvelope_code_zero
      [("code", JValue.num (JNumber.posInt 0)), ("data", JValue.null)]) rfl).1
    JValue.null rfl

/-- C5: the record-mapping step of `list_records` ABORTS the process (the
`Option::unwrap` panic, modelled by `none`) on a fetched zone whose `records` field is
absent from the response, instead of returning a typed error value to the caller. -/
theorem listRecordsMap_aborts_without_records :
    listRecordsMap "example.com" zoneWithoutRecords = none := rfl

/-- C6: the status test of `ApiRequest::send` lets status `300` — outside the 2xx range —
proceed to body decoding (`none`) instead of failing with `StatusCode(300)`: the source
compares `status > 300` where the stated bound is `status >= 300`. Statuses `199` and
`301` do fail as claimed. -/
theorem sendStatusCheck_at_300 :
    sendStatusCheck 300 = none
    ∧ ¬ (200 ≤ 300 ∧ 300 < 300)
    ∧ sendStatusCheck 301 = some (CommonError.StatusCode 301)
    ∧ sendStatusCheck 199 = some (CommonError.StatusCode 199) := by
  refine ⟨rfl, by decide, rfl, rfl⟩

/-- C7: string indexing on JSON values: on an object with the key present it returns the
associated value; on an object with the key absent it returns `KeyMissing(key)`; on every
non-object value it returns `WrongType(value, Object)`. -/
theorem index_into_str_contract (key : String) (v : JValue) :
    (∀ entries x, v = JValue.obj entries → mapGet entries key = some x →
        index_into_str key v = Except.ok x) ∧
    (∀ entries, v = JValue.obj entries → mapGet entries key = none →
        index_into_str key v = Except.error (JError.KeyMissing key)) ∧
    ((∀ entries, v ≠ JValue.obj entries) →
        index_into_str key v = Except.error (JError.WrongType v ValueType.Object)) := by
  refine ⟨?_, ?_, ?_⟩
  · rintro entries x rfl h
    simp [index_into_str, h]
  · rintro entries rfl h
    simp [index_into_str, h]
  · intro h
    cases v with
    | obj entries => exact absurd rfl (h entries)
    | null => rfl
    | bool b => rfl
    | num n => rfl
    | str s => rfl
    | arr elems => rfl

/-- Closed instance of the C7 theorem: a present key yields its value. -/
theorem index_into_str_contract_witness :
    index_into_str "a" (JValue.obj [("a", JValue.null)]) = Except.ok JValue.null :=
  (index_into_str_contract "a" (JValue.obj [("a", JValue.null)])).1
    [("a", JValue.null)] JValue.null rfl rfl

/-- C8: `ok_kind` maps a success to `Ok(Some(value))`, an error whose kind satisfies the
predicate to `Ok(None)`, and any other error to itself unchanged; in particular
`ok_not_found` turns a not-found error into `Ok(None)` and propagates a permission-denied
error unchanged. -/
theorem ok_kind_contract {T : Type} (v : T) (e : IOErr) (pred : ErrorKind → Bool)
    (s t : String) :
    ok_kind (Except.ok v) pred = Except.ok (some v) ∧
    ok_kind (Except.error e : Except IOErr T) pred =
      (if pred e.kind then Except.ok none else Except.error e) ∧
    ok_not_found (Except.error ⟨ErrorKind.NotFound, s⟩ : Except IOErr T) =
      Except.ok none ∧
    ok_not_found (Except.error ⟨ErrorKind.PermissionDenied, t⟩ : Except IOErr T) =
      Except.error ⟨ErrorKind.PermissionDenied, t⟩ := by
  refine ⟨rfl, rfl, rfl, rfl⟩

/-- C9: the named classifier `ok_connection_reset` treats an error as expected absence
exactly when its kind is `ConnectionRefused` — its body tests `ConnectionRefused`, not
`ConnectionReset` — and propagates every other error, including an actual
connection-reset error, unchanged. -/
theorem ok_connection_reset_contract {T : Type} (v : T) (e : IOErr) (s : String) :
    ok_connection_reset (Except.ok v) = Except.ok (some v) ∧
    ok_connection_reset (Except.error e : Except IOErr T) =
      (if e.kind = ErrorKind.ConnectionRefused then Except.ok none
       else Except.error e) ∧
    ok_connection_reset (Except.error ⟨ErrorKind.ConnectionReset, s⟩ : Except IOErr T) =
      Except.error ⟨ErrorKind.ConnectionReset, s⟩ := by
  refine ⟨rfl, ?_, rfl⟩
  obtain ⟨k, m⟩ := e
  cases k <;> simp [ok_connection_reset, ok_kind]

/-- C10: with configured API keys, the porkbun request body injection succeeds on every
object body and yields an object in which `apikey` and `secretapikey` are bound to the
configured key pair — silently overwriting any pre-existing entries under those two
names — while every other key keeps exactly its original binding. -/
theorem porkbunInjectKeys_contract (entries : List (String × JValue))
    (key secretKey : String) (k : String)
    (h1 : k ≠ "apikey") (h2 : k ≠ "secretapikey") :
    ∃ entries₂,
      porkbunInjectKeys (JValue.obj entries) (some (key, secretKey)) =
        some (JValue.obj entries₂) ∧
      mapGet entries₂ "apikey" = some (JValue.str key) ∧
      mapGet entries₂ "secretapikey" = some (JValue.str secretKey) ∧
      mapGet entries₂ k = mapGet entries k := by
  refine ⟨_, rfl, ?_, ?_, ?_⟩
  · rw [mapGet_mapInsert_ne _ _ _ _ (by decide)]
    exact mapGet_mapInsert_self entries "apikey" (JValue.str key)
  · exact mapGet_mapInsert_self _ "secretapikey" (JValue.str secretKey)
  · rw [mapGet_mapInsert_ne _ _ _ _ (Ne.symm h2), mapGet_mapInsert_ne _ _ _ _ (Ne.symm h1)]

/-- Closed instance of the C10 theorem on a body holding one unrelated entry. -/
theorem porkbunInjectKeys_contract_witness :
    ∃ entries₂,
      porkbunInjectKeys (JValue.obj [("name", JValue.str "www")]) (some ("K", "S")) =
        some (JValue.obj entries₂) ∧
      mapGet entries₂ "apikey" = some (JValue.str "K") ∧
      mapGet entries₂ "secretapikey" = some (JValue.str "S") ∧
      mapGet entries₂ "name" = mapGet [("name", JValue.str "www")] "name" :=
  porkbunInjectKeys_contract [("name", JValue.str "www")] "K" "S" "name"
    (by decide) (by decide)

end Registrar
